import Mathlib

/-!
Verification development for the `financial_tracker` repository.

We give a shallow embedding of the two data components:

* `src/financial_tracker/data_reader.py` — `GoogleSheetsReader`: authorizes
  against the Sheets API, fetches one rectangular range and materializes it
  as a `pandas.DataFrame` (first fetched row = column headers).
* `src/financial_tracker/data_processor.py` — `DataProcessor`: coerces the
  `date` column with `pd.to_datetime(errors="coerce")`, the `sum rub` and
  `sum currency` columns with `pd.to_numeric(errors="coerce")`, replaces all
  remaining nulls with `0` (`fillna(0)`), and serves six query methods plus
  `set_index`.

A DataFrame is modelled as a list of column names together with a list of
rows of cells; a cell is a string, a (rational) number, a timestamp, a month
period, or null (NaN/NaT).  External effects of the reader (authorization,
the HTTP fetch) are modelled as explicit input values describing their
outcome.  Methods that may mutate `self.data` are modelled as functions
returning the result paired with the post-state of the table.
-/

namespace FinancialTracker

/-- Claim-relevant cell values: raw strings from the sheet, numbers
(`pd.to_numeric` results and the `fillna(0)` fill value, modelled as `Rat`),
timestamps (`pd.to_datetime` results, year/month/day), month periods
(`.dt.to_period("M")` results), and null (NaN/NaT). -/
inductive Cell where
  | str (s : String)
  | num (q : Rat)
  | date (y m d : Nat)
  | period (y m : Nat)
  | null
deriving DecidableEq, Repr

/-- Errors surfaced by pandas operations used in `data_processor.py`:
`KeyError` from a missing column lookup, and the `ValueError` raised
explicitly by `DataProcessor.set_index`. -/
inductive PdError where
  | keyError (name : String)
  | valueError (msg : String)
deriving DecidableEq, Repr

/-- A `pandas.DataFrame`: named columns and rows of cells, plus the index
as far as this code manipulates it (`set_index` moves a column into the
index; a fresh frame has the default range index, modelled as `none`). -/
structure DataFrame where
  columns : List String
  rows : List (List Cell)
  indexName : Option String
  indexVals : List Cell
deriving DecidableEq, Repr

/-- The empty `pd.DataFrame()`. -/
def emptyDF : DataFrame := ⟨[], [], none, []⟩

/-! ### String parsing helpers

`pd.to_datetime` / `pd.to_numeric` accept many textual formats; the sheet
data relevant here uses ISO `YYYY-MM-DD` dates and decimal numerals, which
is what we model.  We parse over `List Char` with structural recursion. -/

/-- Numeric value of a decimal digit character, if it is one. -/
def digitVal (c : Char) : Option Nat :=
  if c.isDigit then some (c.toNat - 48) else none

/-- Parse a non-empty all-digit character list as a natural number. -/
def parseNatAux : List Char → Nat → Option Nat
  | [], acc => some acc
  | c :: cs, acc =>
    match digitVal c with
    | some d => parseNatAux cs (acc * 10 + d)
    | none => none

/-- Parse a non-empty all-digit character list as a natural number. -/
def parseNatChars (cs : List Char) : Option Nat :=
  match cs with
  | [] => none
  | _ => parseNatAux cs 0

/-- Split a character list on a separator character. -/
def splitOnChar (sep : Char) : List Char → List (List Char)
  | [] => [[]]
  | c :: cs =>
    match splitOnChar sep cs, decide (c = sep) with
    | r, true => [] :: r
    | [], false => [[c]]
    | g :: gs, false => (c :: g) :: gs

/-- Parse an ISO `YYYY-MM-DD` date string (the format of the sheet data).
Returns `none` on anything malformed — modelling the values on which
`pd.to_datetime(errors="coerce")` yields `NaT` for this data. -/
def parseDate (s : String) : Option (Nat × Nat × Nat) :=
  match (splitOnChar '-' s.toList).map parseNatChars with
  | [some y, some m, some d] =>
    if 1 ≤ m ∧ m ≤ 12 ∧ 1 ≤ d ∧ d ≤ 31 then some (y, m, d) else none
  | _ => none

/-- Parse an unsigned decimal numeral (`"12"` or `"12.5"`) as a rational. -/
def parseUnsigned (cs : List Char) : Option Rat :=
  match (splitOnChar '.' cs).map parseNatChars with
  | [some n] => some (n : Rat)
  | [some n, some f] =>
    match splitOnChar '.' cs with
    | [_, fracDigits] => some ((n : Rat) + (f : Rat) / ((10 : Rat) ^ fracDigits.length))
    | _ => none
  | _ => none

/-- Parse a decimal numeral with optional leading minus sign.  Returns
`none` on anything malformed — modelling the values on which
`pd.to_numeric(errors="coerce")` yields `NaN` for this data. -/
def parseNum (s : String) : Option Rat :=
  match s.toList with
  | '-' :: rest => (parseUnsigned rest).map (fun q => -q)
  | cs => parseUnsigned cs

/-! ### Cell-level coercions -/

/-- `pd.to_datetime(·, errors="coerce")` on one cell: strings parse to a
timestamp or `NaT`; timestamps pass through; an integer is interpreted as
nanoseconds since the epoch (the only such value arising in this program is
the fill value `0`, i.e. 1970-01-01); anything else coerces to `NaT`. -/
def coerceDate (c : Cell) : Cell :=
  match c with
  | .str s =>
    match parseDate s with
    | some (y, m, d) => .date y m d
    | none => .null
  | .date y m d => .date y m d
  | .num _ => .date 1970 1 1
  | _ => .null

/-- `pd.to_numeric(·, errors="coerce")` on one cell: numeric strings parse,
numbers pass through, anything non-convertible coerces to `NaN`. -/
def coerceNum (c : Cell) : Cell :=
  match c with
  | .str s =>
    match parseNum s with
    | some q => .num q
    | none => .null
  | .num q => .num q
  | _ => .null

/-- `fillna(0)` on one cell: nulls become the number `0`, every other
value is kept. -/
def fillCell (c : Cell) : Cell :=
  match c with
  | .null => .num 0
  | c => c

/-- `pd.to_datetime(col).dt.to_period("M")` on one cell: the month period
of the cell's timestamp, `NaT`/null staying null. -/
def monthOf (c : Cell) : Cell :=
  match coerceDate c with
  | .date y m _ => .period y m
  | _ => .null

/-- Zero-padded two-digit rendering of a month number. -/
def pad2 (m : Nat) : String :=
  if m < 10 then "0" ++ toString m else toString m

/-- `.dt.strftime("%Y-%m")` on one cell: a period renders as `"YYYY-MM"`;
other cells (which do not arise there) are left unchanged. -/
def formatMonth (c : Cell) : Cell :=
  match c with
  | .period y m => .str (toString y ++ "-" ++ pad2 m)
  | c => c

/-! ### Sheet Reader (`data_reader.py`) -/

/-- Outcome of `GoogleSheetsReader._authorize` (credentials loading plus
service construction): success, or an exception (logged and re-raised). -/
inductive AuthResult where
  | ok
  | failure
deriving DecidableEq, Repr

/-- Outcome of the `values().get(...).execute()` fetch inside
`GoogleSheetsReader._get_data`: the `values` list of the response (absent
key defaulting to `[]`), or a raised network/retrieval error. -/
inductive FetchResult where
  | ok (values : List (List String))
  | error
deriving DecidableEq, Repr

/-- `pd.DataFrame(values[1:], columns=values[0])`: first fetched row is the
headers, remaining rows are the data rows in fetched order.  Short rows are
padded with null and long rows truncated to the header width (the fetched
range is rectangular; the padding only makes the model total). -/
def makeDF (values : List (List String)) : DataFrame :=
  let headers := values.headI
  let pad : List String → List Cell := fun r =>
    (r.map Cell.str ++ List.replicate (headers.length - r.length) Cell.null).take
      headers.length
  ⟨headers, values.tail.map pad, none, []⟩

/-- `GoogleSheetsReader._get_data` after successful authorization: an empty
`values` list or a raised retrieval error both produce an empty DataFrame
(the error is logged, not propagated); otherwise the values materialize
with the first row as headers. -/
def getData (fetch : FetchResult) : DataFrame :=
  match fetch with
  | .error => emptyDF
  | .ok values => if values = [] then emptyDF else makeDF values

/-- `GoogleSheetsReader.__post_init__`: authorizes, then fetches.  An
authorization failure is logged and RE-RAISED (`raise` in the `except`
block), so construction propagates it; after successful authorization the
data is whatever `_get_data` returns. -/
def readerInit (auth : AuthResult) (fetch : FetchResult) : Except Unit DataFrame :=
  match auth with
  | .failure => .error ()
  | .ok => .ok (getData fetch)

/-! ### DataFrame primitives

Column access is positional through the first occurrence of the column
name, with `Cell.null` as the out-of-range default (a DataFrame built by
`makeDF` is rectangular, so the default is never read there). -/

/-- The cell of row `r` in the column called `name` (first occurrence,
with `Cell.null` as out-of-range default). -/
def cellOfRow (df : DataFrame) (name : String) (r : List Cell) : Cell :=
  r.getD (df.columns.indexOf name) Cell.null

/-- `df[name]`: the column's cells, or a `KeyError` when the name is not a
column (pandas `__getitem__` semantics). -/
def getCol (df : DataFrame) (name : String) : Except PdError (List Cell) :=
  if name ∈ df.columns then
    .ok (df.rows.map (cellOfRow df name))
  else .error (.keyError name)

/-- `df[name] = f(df[name])` guarded by `if name in df.columns` — the shape
of each conversion in `DataProcessor._check_and_convert_data_types`.  A
no-op when the column is absent. -/
def mapCol (df : DataFrame) (name : String) (f : Cell → Cell) : DataFrame :=
  if name ∈ df.columns then
    { df with rows := df.rows.map (fun r =>
        r.set (df.columns.indexOf name) (f (r.getD (df.columns.indexOf name) Cell.null))) }
  else df

/-- `df[name] = vals` for a full-length column of values: overwrites the
column when it exists, otherwise appends it as a new last column. -/
def setCol (df : DataFrame) (name : String) (vals : List Cell) : DataFrame :=
  if name ∈ df.columns then
    { df with rows := List.zipWith (fun r v => r.set (df.columns.indexOf name) v) df.rows vals }
  else
    { df with columns := df.columns ++ [name],
              rows := List.zipWith (fun r v => r ++ [v]) df.rows vals }

/-- Rectangularity: every row has exactly one cell per column (the Table
shape of the glossary; `makeDF` output always satisfies it). -/
def Rect (df : DataFrame) : Prop :=
  ∀ r ∈ df.rows, r.length = df.columns.length

instance Rect.decidable (df : DataFrame) : Decidable (Rect df) :=
  inferInstanceAs (Decidable (∀ r ∈ df.rows, r.length = df.columns.length))

/-- The cell at row `i`, column position `j`. -/
def cellAt (df : DataFrame) (i j : Nat) : Cell :=
  (df.rows.getD i []).getD j Cell.null

/-- The numeric value of a cell (how the numeric `sum rub` column is read
by the aggregations; after processing every such cell is `Cell.num`). -/
def cellRat (c : Cell) : Rat :=
  match c with
  | .num q => q
  | _ => 0

/-! ### Processor construction (`DataProcessor.__post_init__`) -/

/-- `DataProcessor._check_and_convert_data_types`: coerce `date` with
`pd.to_datetime(errors="coerce")`, then `sum rub` and `sum currency` with
`pd.to_numeric(errors="coerce")`, each only if the column exists. -/
def checkAndConvert (df : DataFrame) : DataFrame :=
  mapCol (mapCol (mapCol df "date" coerceDate) "sum rub" coerceNum) "sum currency" coerceNum

/-- `DataProcessor._replace_nan`: `self.data.fillna(0, inplace=True)` —
every null cell in every column becomes the number `0`. -/
def replaceNan (df : DataFrame) : DataFrame :=
  { df with rows := df.rows.map (List.map fillCell) }

/-- `DataProcessor.__post_init__` on the reader's table: type coercion
followed by NaN replacement. -/
def process (df : DataFrame) : DataFrame :=
  replaceNan (checkAndConvert df)

/-! ### Grouping (`groupby(key)[val].sum()` et al.)

An aggregation result `DataFrame` (`.reset_index()` output) is represented
as the association list of (group key, aggregate) pairs.  Pandas `groupby`
drops null keys (`dropna=True` default) and we take group keys with
`dedup` (pandas returns them sorted; none of the claims depend on the key
order, only on which pairs appear). -/

/-- The distinct non-null group keys of a key column. -/
def keysOf (l : List Cell) : List Cell :=
  (l.filter (fun c => decide (c ≠ Cell.null))).dedup

/-- Total of the values whose paired key equals `k`. -/
def sumFor (pairs : List (Cell × Rat)) (k : Cell) : Rat :=
  ((pairs.filter (fun p => decide (p.1 = k))).map (fun p => p.2)).sum

/-- `groupby(key)[val].sum().reset_index()` over already-aligned
(key, value) pairs. -/
def groupbySum (pairs : List (Cell × Rat)) : List (Cell × Rat) :=
  (keysOf (pairs.map (fun p => p.1))).map (fun k => (k, sumFor pairs k))

/-! ### The query methods

Each method is a function from the table (`self.data`) to its result
paired with the post-state of the table, since Python methods may mutate
`self.data` in place. -/

/-- `DataProcessor.filter_by_category`:
`self.data[self.data["category"] == category]`. -/
def filter_by_category (df : DataFrame) (category : String) :
    Except PdError DataFrame × DataFrame :=
  if "category" ∈ df.columns then
    (.ok { df with rows := df.rows.filter (fun r =>
        decide (cellOfRow df "category" r = Cell.str category)) }, df)
  else (.error (.keyError "category"), df)

/-- `DataProcessor.filter_by_period`:
`self.data[self.data["period"] == period]`. -/
def filter_by_period (df : DataFrame) (period : String) :
    Except PdError DataFrame × DataFrame :=
  if "period" ∈ df.columns then
    (.ok { df with rows := df.rows.filter (fun r =>
        decide (cellOfRow df "period" r = Cell.str period)) }, df)
  else (.error (.keyError "period"), df)

/-- `DataProcessor.get_category_summary`:
`self.data.groupby("category")["sum rub"].sum().reset_index()`. -/
def get_category_summary (df : DataFrame) :
    Except PdError (List (Cell × Rat)) × DataFrame :=
  match getCol df "category", getCol df "sum rub" with
  | .ok keys, .ok vals => (.ok (groupbySum (keys.zip (vals.map cellRat))), df)
  | .error e, _ => (.error e, df)
  | _, .error e => (.error e, df)

/-- `DataProcessor.get_subcategory_summary`: filter by the category, then
`groupby("subcategory")["sum rub"].sum().reset_index()`. -/
def get_subcategory_summary (df : DataFrame) (category : String) :
    Except PdError (List (Cell × Rat)) × DataFrame :=
  match (filter_by_category df category).1 with
  | .error e => (.error e, df)
  | .ok fdf =>
    match getCol fdf "subcategory", getCol fdf "sum rub" with
    | .ok keys, .ok vals => (.ok (groupbySum (keys.zip (vals.map cellRat))), df)
    | .error e, _ => (.error e, df)
    | _, .error e => (.error e, df)

/-- `DataProcessor.get_monthly_summary`: assigns
`self.data["month"] = pd.to_datetime(self.data["date"]).dt.to_period("M")`
— a mutation of the table — then groups `sum rub` by the new column and
renders the month keys with `strftime("%Y-%m")`.  A missing `date` column
raises before the mutation; a missing `sum rub` column raises after it. -/
def get_monthly_summary (df : DataFrame) :
    Except PdError (List (Cell × Rat)) × DataFrame :=
  match getCol df "date" with
  | .error e => (.error e, df)
  | .ok dates =>
    let df' := setCol df "month" (dates.map monthOf)
    match getCol df' "month", getCol df' "sum rub" with
    | .ok months, .ok vals =>
      (.ok ((groupbySum (months.zip (vals.map cellRat))).map
          (fun p => (formatMonth p.1, p.2))), df')
    | .error e, _ => (.error e, df')
    | _, .error e => (.error e, df')

/-! Mean/median helpers for `get_category_mean_median`. -/

/-- Insert into a sorted list of rationals. -/
def insertSorted (x : Rat) : List Rat → List Rat
  | [] => [x]
  | y :: ys => if x ≤ y then x :: y :: ys else y :: insertSorted x ys

/-- Sort a list of rationals (insertion sort). -/
def sortRats : List Rat → List Rat
  | [] => []
  | x :: xs => insertSorted x (sortRats xs)

/-- Mean of a list of rationals (0 for the empty list, which cannot arise
for a non-empty group). -/
def meanR (l : List Rat) : Rat := l.sum / (l.length : Rat)

/-- Median of a list of rationals: middle of the sorted values, averaging
the two middles for even length (pandas `median`). -/
def medianR (l : List Rat) : Rat :=
  let s := sortRats l
  if l.length % 2 = 1 then s.getD (l.length / 2) 0
  else (s.getD (l.length / 2 - 1) 0 + s.getD (l.length / 2) 0) / 2

/-- `DataProcessor.get_category_mean_median`: the whole body runs inside
`try/except Exception`, so a missing column's `KeyError` is caught, logged
and turned into an EMPTY result table — this method never propagates an
error. -/
def get_category_mean_median (df : DataFrame) :
    Except PdError (List (Cell × Rat × Rat)) × DataFrame :=
  match getCol df "category", getCol df "sum rub" with
  | .ok keys, .ok vals =>
    let pairs := keys.zip (vals.map cellRat)
    (.ok ((keysOf keys).map (fun k =>
      let g := (pairs.filter (fun p => decide (p.1 = k))).map (fun p => p.2)
      (k, meanR g, medianR g))), df)
  | _, _ => (.ok [], df)

/-- `DataProcessor.set_index`: when the column exists it becomes the index
(`set_index(..., inplace=True)`, which removes it from the columns);
otherwise a `ValueError` is raised and the table is untouched. -/
def set_index (df : DataFrame) (name : String) : Except PdError Unit × DataFrame :=
  if name ∈ df.columns then
    (.ok (), { columns := df.columns.eraseIdx (df.columns.indexOf name),
               rows := df.rows.map (fun r => r.eraseIdx (df.columns.indexOf name)),
               indexName := some name,
               indexVals := df.rows.map (fun r => r.getD (df.columns.indexOf name) Cell.null) })
  else (.error (.valueError ("Column '" ++ name ++ "' not found in DataFrame.")), df)

/-- The positional conversion applied by `_check_and_convert_data_types`
at column position `j`: `to_datetime` at the `date` column, `to_numeric`
at the `sum rub` and `sum currency` columns, identity elsewhere. -/
def convertAt (df : DataFrame) (j : Nat) (c : Cell) : Cell :=
  if "date" ∈ df.columns ∧ j = df.columns.indexOf "date" then coerceDate c
  else if "sum rub" ∈ df.columns ∧ j = df.columns.indexOf "sum rub" then coerceNum c
  else if "sum currency" ∈ df.columns ∧ j = df.columns.indexOf "sum currency" then coerceNum c
  else c

instance exceptDecidableEq {ε α : Type} [DecidableEq ε] [DecidableEq α] :
    DecidableEq (Except ε α)
  | .error e, .error e2 =>
    if h : e = e2 then .isTrue (by rw [h]) else .isFalse (by simp [h])
  | .ok x, .ok y =>
    if h : x = y then .isTrue (by rw [h]) else .isFalse (by simp [h])
  | .error _, .ok _ => .isFalse (by simp)
  | .ok _, .error _ => .isFalse (by simp)

/-! ### Example tables (used by witnesses and counterexamples) -/

/-- A small raw table as fetched from the sheet: three transactions, one of
them with malformed date and amount entries. -/
def exRaw : DataFrame :=
  ⟨["date", "category", "subcategory", "period", "sum rub", "sum currency"],
   [[Cell.str "2024-01-05", Cell.str "food", Cell.str "grocery", Cell.str "W1",
     Cell.str "10", Cell.str "3.5"],
    [Cell.str "notadate", Cell.str "food", Cell.str "cafe", Cell.str "W1",
     Cell.str "x", Cell.str "2"],
    [Cell.str "2024-02-10", Cell.str "rent", Cell.str "flat", Cell.str "W2",
     Cell.str "5", Cell.str "1"]], none, []⟩

/-- A processed-shape table that already has a `month` column. -/
def exMonth : DataFrame :=
  ⟨["date", "sum rub", "month"],
   [[Cell.date 2024 1 1, Cell.num 5, Cell.str "old"]], none, []⟩

/-- A table missing every column the query methods require. -/
def exNoCols : DataFrame := ⟨["x"], [[Cell.num 1]], none, []⟩

/-- A table with `category`, `subcategory`, `period` and `date` present but
the `sum rub` column missing. -/
def exNoSum : DataFrame :=
  ⟨["date", "category", "subcategory", "period"],
   [[Cell.str "2024-01-05", Cell.str "food", Cell.str "grocery", Cell.str "W1"]],
   none, []⟩

/-! ### List helper lemmas -/

theorem getD_set_self {α : Type} (l : List α) (i : Nat) (a d : α) (h : i < l.length) :
    (l.set i a).getD i d = a := by
  rw [List.getD_eq_getElem _ _ (by simpa using h)]
  exact List.getElem_set_self (by simpa using h)

theorem getD_set_ne {α : Type} (l : List α) {i j : Nat} (h : i ≠ j) (a d : α) :
    (l.set i a).getD j d = l.getD j d := by
  simp [List.getD_eq_getElem?_getD, List.getElem?_set_ne h]

theorem getD_map_of_lt {α β : Type} (f : α → β) (l : List α) (i : Nat) (d : α) (db : β)
    (h : i < l.length) : (l.map f).getD i db = f (l.getD i d) := by
  rw [List.getD_eq_getElem _ _ (by simpa using h), List.getD_eq_getElem _ _ h]
  simp

theorem getD_append_of_lt {α : Type} (l l' : List α) (j : Nat) (d : α) (h : j < l.length) :
    (l ++ l').getD j d = l.getD j d := by
  rw [List.getD_eq_getElem _ _ (by simp; omega), List.getD_eq_getElem _ _ h]
  exact List.getElem_append_left h

theorem indexOf_ne_of_present {a b : String} {l : List String}
    (ha : a ∈ l) (hb : b ∈ l) (hab : a ≠ b) : l.indexOf a ≠ l.indexOf b := by
  intro h
  have ha' := List.indexOf_lt_length.2 ha
  have hb' := List.indexOf_lt_length.2 hb
  have h1 : l.get ⟨List.indexOf a l, ha'⟩ = a := List.indexOf_get ha'
  have h2 : l.get ⟨List.indexOf b l, hb'⟩ = b := List.indexOf_get hb'
  have hgg : l.get ⟨List.indexOf a l, ha'⟩ = l.get ⟨List.indexOf b l, hb'⟩ := by
    congr 1
    exact Fin.ext h
  rw [h1, h2] at hgg
  exact hab hgg

/-! ### Structural lemmas about `mapCol` and processing -/

theorem mapCol_columns (df : DataFrame) (name : String) (f : Cell → Cell) :
    (mapCol df name f).columns = df.columns := by
  unfold mapCol
  split <;> rfl

theorem mapCol_rows_length (df : DataFrame) (name : String) (f : Cell → Cell) :
    (mapCol df name f).rows.length = df.rows.length := by
  unfold mapCol
  split <;> simp

theorem mapCol_row_length (df : DataFrame) (name : String) (f : Cell → Cell) (i : Nat) :
    ((mapCol df name f).rows.getD i []).length = (df.rows.getD i []).length := by
  unfold mapCol
  split
  · by_cases hi : i < df.rows.length
    · rw [getD_map_of_lt _ _ i [] [] hi]
      simp
    · rw [List.getD_eq_default _ _ (by simpa using Nat.le_of_not_lt hi),
        List.getD_eq_default _ _ (Nat.le_of_not_lt hi)]
  · rfl

theorem mapCol_cellAt (df : DataFrame) (name : String) (f : Cell → Cell) (i j : Nat)
    (hj : j < (df.rows.getD i []).length) :
    cellAt (mapCol df name f) i j =
      if name ∈ df.columns ∧ j = df.columns.indexOf name then f (cellAt df i j)
      else cellAt df i j := by
  have hi : i < df.rows.length := by
    by_contra hi
    rw [List.getD_eq_default _ _ (Nat.le_of_not_lt hi)] at hj
    simp at hj
  unfold mapCol cellAt
  by_cases hmem : name ∈ df.columns
  · simp only [if_pos hmem]
    rw [getD_map_of_lt _ _ i [] [] hi]
    by_cases hjj : j = df.columns.indexOf name
    · subst hjj
      rw [getD_set_self _ _ _ Cell.null hj]
      simp [hmem]
    · rw [getD_set_ne _ (fun hh => hjj hh.symm) _ Cell.null]
      simp [hmem, hjj]
  · simp [hmem]

theorem checkAndConvert_columns (df : DataFrame) :
    (checkAndConvert df).columns = df.columns := by
  simp [checkAndConvert, mapCol_columns]

theorem checkAndConvert_rows_length (df : DataFrame) :
    (checkAndConvert df).rows.length = df.rows.length := by
  simp [checkAndConvert, mapCol_rows_length]

theorem checkAndConvert_row_length (df : DataFrame) (i : Nat) :
    ((checkAndConvert df).rows.getD i []).length = (df.rows.getD i []).length := by
  unfold checkAndConvert
  rw [mapCol_row_length, mapCol_row_length, mapCol_row_length]

theorem checkAndConvert_cellAt (df : DataFrame) (i j : Nat)
    (hj : j < (df.rows.getD i []).length) :
    cellAt (checkAndConvert df) i j = convertAt df j (cellAt df i j) := by
  have hj1 : j < ((mapCol df "date" coerceDate).rows.getD i []).length := by
    rw [mapCol_row_length]; exact hj
  have hj2 : j <
      ((mapCol (mapCol df "date" coerceDate) "sum rub" coerceNum).rows.getD i []).length := by
    rw [mapCol_row_length, mapCol_row_length]; exact hj
  unfold checkAndConvert
  rw [mapCol_cellAt _ "sum currency" coerceNum i j hj2,
    mapCol_cellAt _ "sum rub" coerceNum i j hj1,
    mapCol_cellAt _ "date" coerceDate i j hj]
  simp only [mapCol_columns]
  unfold convertAt
  have hdr : ¬(("date" ∈ df.columns ∧ j = df.columns.indexOf "date") ∧
      ("sum rub" ∈ df.columns ∧ j = df.columns.indexOf "sum rub")) := fun h =>
    indexOf_ne_of_present h.1.1 h.2.1 (by decide) (h.1.2.symm.trans h.2.2)
  have hdc : ¬(("date" ∈ df.columns ∧ j = df.columns.indexOf "date") ∧
      ("sum currency" ∈ df.columns ∧ j = df.columns.indexOf "sum currency")) := fun h =>
    indexOf_ne_of_present h.1.1 h.2.1 (by decide) (h.1.2.symm.trans h.2.2)
  have hrc : ¬(("sum rub" ∈ df.columns ∧ j = df.columns.indexOf "sum rub") ∧
      ("sum currency" ∈ df.columns ∧ j = df.columns.indexOf "sum currency")) := fun h =>
    indexOf_ne_of_present h.1.1 h.2.1 (by decide) (h.1.2.symm.trans h.2.2)
  by_cases hd : "date" ∈ df.columns ∧ j = df.columns.indexOf "date"
  · obtain ⟨hd1, hd2⟩ := hd
    subst hd2
    have hr : ¬("sum rub" ∈ df.columns ∧
        df.columns.indexOf "date" = df.columns.indexOf "sum rub") :=
      fun h => hdr ⟨⟨hd1, rfl⟩, h⟩
    have hc : ¬("sum currency" ∈ df.columns ∧
        df.columns.indexOf "date" = df.columns.indexOf "sum currency") :=
      fun h => hdc ⟨⟨hd1, rfl⟩, h⟩
    simp only [if_neg hc, if_neg hr, if_pos (show "date" ∈ df.columns ∧
      df.columns.indexOf "date" = df.columns.indexOf "date" from ⟨hd1, rfl⟩)]
  · by_cases hr : "sum rub" ∈ df.columns ∧ j = df.columns.indexOf "sum rub"
    · obtain ⟨hr1, hr2⟩ := hr
      subst hr2
      have hc : ¬("sum currency" ∈ df.columns ∧
          df.columns.indexOf "sum rub" = df.columns.indexOf "sum currency") :=
        fun h => hrc ⟨⟨hr1, rfl⟩, h⟩
      simp only [if_neg hc, if_neg hd, if_pos (show "sum rub" ∈ df.columns ∧
        df.columns.indexOf "sum rub" = df.columns.indexOf "sum rub" from ⟨hr1, rfl⟩)]
    · by_cases hc : "sum currency" ∈ df.columns ∧ j = df.columns.indexOf "sum currency"
      · obtain ⟨hc1, hc2⟩ := hc
        subst hc2
        simp only [if_neg hd, if_neg hr, if_pos (show "sum currency" ∈ df.columns ∧
          df.columns.indexOf "sum currency" = df.columns.indexOf "sum currency" from ⟨hc1, rfl⟩)]
      · simp only [if_neg hd, if_neg hr, if_neg hc]

theorem process_cellAt (df : DataFrame) (i j : Nat)
    (hj : j < (df.rows.getD i []).length) :
    cellAt (process df) i j = fillCell (convertAt df j (cellAt df i j)) := by
  have hi : i < df.rows.length := by
    by_contra hi
    rw [List.getD_eq_default _ _ (Nat.le_of_not_lt hi)] at hj
    simp at hj
  have hi' : i < (checkAndConvert df).rows.length := by
    rw [checkAndConvert_rows_length]; exact hi
  have hj' : j < ((checkAndConvert df).rows.getD i []).length := by
    rw [checkAndConvert_row_length]; exact hj
  show ((process df).rows.getD i []).getD j Cell.null = _
  unfold process replaceNan
  simp only []
  rw [getD_map_of_lt _ _ i [] [] hi', getD_map_of_lt fillCell _ j Cell.null Cell.null hj']
  rw [show ((checkAndConvert df).rows.getD i []).getD j Cell.null
      = cellAt (checkAndConvert df) i j from rfl]
  rw [checkAndConvert_cellAt df i j hj]

/-! ### Claim C1 — reader error swallowing -/

/-- Claim C1 (counterexample): the claim says no error of any kind
propagates from Sheet Reader construction, but an authorization failure is
re-raised by `__post_init__`: at a concrete input the constructor
propagates the error. -/
theorem C1_reader_error_counterexample :
    readerInit AuthResult.failure (FetchResult.ok [["h"], ["v"]]) = Except.error () := rfl

/-- Claim C1 (amended): after successful authorization, `_get_data` never
propagates an error — an empty range or a retrieval error yields an empty
table (errors logged only) — but an authorization failure is re-raised
from the constructor. -/
theorem C1_reader_error_swallowing_amended :
    (∀ f : FetchResult, readerInit AuthResult.ok f = Except.ok (getData f)) ∧
    getData FetchResult.error = emptyDF ∧
    getData (FetchResult.ok []) = emptyDF ∧
    (∀ f : FetchResult, readerInit AuthResult.failure f = Except.error ()) :=
  ⟨fun _ => rfl, rfl, rfl, fun _ => rfl⟩

/-! ### Claim C8 — header materialization -/

/-- Claim C8: when the fetch yields a non-empty rectangular value list,
the materialized table has the first fetched row as the column headers and
the remaining rows, in fetched order, as the data rows. -/
theorem C8_first_row_headers (h : List String) (t : List (List String))
    (hrect : ∀ r ∈ t, r.length = h.length) :
    getData (FetchResult.ok (h :: t)) =
      ⟨h, t.map (fun r => r.map Cell.str), none, []⟩ := by
  simp only [getData, makeDF, List.headI, List.tail_cons, if_neg (List.cons_ne_nil h t)]
  refine congrArg (fun rs => DataFrame.mk h rs none []) ?_
  refine List.map_congr_left (fun r hr => ?_)
  have hlen : r.length = h.length := hrect r hr
  have : h.length - r.length = 0 := by omega
  rw [this]
  simp only [List.replicate_zero, List.append_nil]
  have : (r.map Cell.str).length = h.length := by simpa using hlen
  rw [← this, List.take_length]

/-- Claim C8 witness: a concrete two-row fetch materializes with headers
and one data row. -/
theorem C8_first_row_headers_witness :
    getData (FetchResult.ok [["a", "b"], ["1", "2"]]) =
      ⟨["a", "b"], [[Cell.str "1", Cell.str "2"]], none, []⟩ :=
  C8_first_row_headers ["a", "b"] [["1", "2"]] (by decide)

/-! ### Claim C2 — no nulls after processing -/

/-- Claim C2: after DataProcessor construction (type coercion followed by
NaN replacement) no null value remains anywhere in the table, and every
cell is the fill of the (possibly coerced) original cell — its original
non-null value, a coerced value, or zero. -/
theorem C2_no_null_after_processing (df : DataFrame) (i j : Nat)
    (hj : j < (df.rows.getD i []).length) :
    (∀ r ∈ (process df).rows, ∀ c ∈ r, c ≠ Cell.null) ∧
    cellAt (process df) i j = fillCell (convertAt df j (cellAt df i j)) := by
  refine ⟨?_, process_cellAt df i j hj⟩
  intro r hr c hc
  simp only [process, replaceNan, List.mem_map] at hr
  obtain ⟨r0, _, rfl⟩ := hr
  simp only [List.mem_map] at hc
  obtain ⟨c0, _, rfl⟩ := hc
  cases c0 <;> simp [fillCell]

/-- Claim C2 witness: the concrete raw table processes to a table with no
nulls, its top-left cell being the fill of its coerced original. -/
theorem C2_no_null_after_processing_witness :
    (∀ r ∈ (process exRaw).rows, ∀ c ∈ r, c ≠ Cell.null) ∧
    cellAt (process exRaw) 0 0 = fillCell (convertAt exRaw 0 (cellAt exRaw 0 0)) :=
  C2_no_null_after_processing exRaw 0 0 (by decide)

/-! ### Claim C6 — malformed entries become the sentinel, never raise -/

/-- Claim C6: the construction-time coercions are total functions of the
table (nothing raises), and every malformed entry of the `date`, `sum rub`
and `sum currency` columns — one on which the coercion yields null — ends
up as the zero sentinel after the fill. -/
theorem C6_malformed_to_sentinel (df : DataFrame) (i : Nat)
    (hrect : Rect df) (hi : i < df.rows.length) :
    ("date" ∈ df.columns →
      coerceDate (cellAt df i (df.columns.indexOf "date")) = Cell.null →
      cellAt (process df) i (df.columns.indexOf "date") = Cell.num 0) ∧
    ("sum rub" ∈ df.columns →
      coerceNum (cellAt df i (df.columns.indexOf "sum rub")) = Cell.null →
      cellAt (process df) i (df.columns.indexOf "sum rub") = Cell.num 0) ∧
    ("sum currency" ∈ df.columns →
      coerceNum (cellAt df i (df.columns.indexOf "sum currency")) = Cell.null →
      cellAt (process df) i (df.columns.indexOf "sum currency") = Cell.num 0) := by
  have hrow : df.rows.getD i [] ∈ df.rows := by
    rw [List.getD_eq_getElem _ _ hi]
    exact List.getElem_mem hi
  have hlen : (df.rows.getD i []).length = df.columns.length := hrect _ hrow
  refine ⟨fun hmem hmal => ?_, fun hmem hmal => ?_, fun hmem hmal => ?_⟩
  · have hj : df.columns.indexOf "date" < (df.rows.getD i []).length := by
      rw [hlen]
      exact List.indexOf_lt_length.2 hmem
    rw [process_cellAt df i _ hj]
    unfold convertAt
    rw [if_pos ⟨hmem, rfl⟩, hmal]
    rfl
  · have hj : df.columns.indexOf "sum rub" < (df.rows.getD i []).length := by
      rw [hlen]
      exact List.indexOf_lt_length.2 hmem
    rw [process_cellAt df i _ hj]
    unfold convertAt
    have hnd : ¬("date" ∈ df.columns ∧
        df.columns.indexOf "sum rub" = df.columns.indexOf "date") :=
      fun h => indexOf_ne_of_present h.1 hmem (by decide) h.2.symm
    rw [if_neg hnd, if_pos ⟨hmem, rfl⟩, hmal]
    rfl
  · have hj : df.columns.indexOf "sum currency" < (df.rows.getD i []).length := by
      rw [hlen]
      exact List.indexOf_lt_length.2 hmem
    rw [process_cellAt df i _ hj]
    unfold convertAt
    have hnd : ¬("date" ∈ df.columns ∧
        df.columns.indexOf "sum currency" = df.columns.indexOf "date") :=
      fun h => indexOf_ne_of_present h.1 hmem (by decide) h.2.symm
    have hnr : ¬("sum rub" ∈ df.columns ∧
        df.columns.indexOf "sum currency" = df.columns.indexOf "sum rub") :=
      fun h => indexOf_ne_of_present h.1 hmem (by decide) h.2.symm
    rw [if_neg hnd, if_neg hnr, if_pos ⟨hmem, rfl⟩, hmal]
    rfl

/-- Claim C6 witness: in the concrete raw table, row 1 has a malformed
date (`"notadate"`) and a malformed amount (`"x"`); both become zero. -/
theorem C6_malformed_to_sentinel_witness :
    ("date" ∈ exRaw.columns →
      coerceDate (cellAt exRaw 1 (exRaw.columns.indexOf "date")) = Cell.null →
      cellAt (process exRaw) 1 (exRaw.columns.indexOf "date") = Cell.num 0) ∧
    ("sum rub" ∈ exRaw.columns →
      coerceNum (cellAt exRaw 1 (exRaw.columns.indexOf "sum rub")) = Cell.null →
      cellAt (process exRaw) 1 (exRaw.columns.indexOf "sum rub") = Cell.num 0) ∧
    ("sum currency" ∈ exRaw.columns →
      coerceNum (cellAt exRaw 1 (exRaw.columns.indexOf "sum currency")) = Cell.null →
      cellAt (process exRaw) 1 (exRaw.columns.indexOf "sum currency") = Cell.num 0) :=
  C6_malformed_to_sentinel exRaw 1 (by decide) (by decide)

/-! ### Lemmas about `setCol` and grouping -/

theorem getD_append_self (r : List Cell) (v d : Cell) : (r ++ [v]).getD r.length d = v := by
  induction r with
  | nil => rfl
  | cons a t ih =>
    simp only [List.cons_append, List.length_cons, List.getD_cons_succ]
    exact ih

theorem setCol_pos (df : DataFrame) (name : String) (vals : List Cell)
    (h : name ∈ df.columns) :
    setCol df name vals = DataFrame.mk df.columns
      (List.zipWith (fun r v => r.set (df.columns.indexOf name) v) df.rows vals)
      df.indexName df.indexVals := by
  unfold setCol
  rw [if_pos h]

theorem setCol_neg (df : DataFrame) (name : String) (vals : List Cell)
    (h : name ∉ df.columns) :
    setCol df name vals = DataFrame.mk (df.columns ++ [name])
      (List.zipWith (fun r v => r ++ [v]) df.rows vals)
      df.indexName df.indexVals := by
  unfold setCol
  rw [if_neg h]

theorem map_getD_zipWith_set (rows : List (List Cell)) (vals : List Cell) (idx : Nat)
    (hlen : vals.length = rows.length) (hidx : ∀ r ∈ rows, idx < r.length) :
    (List.zipWith (fun r v => r.set idx v) rows vals).map (fun r => r.getD idx Cell.null)
      = vals := by
  induction rows generalizing vals with
  | nil =>
    cases vals with
    | nil => rfl
    | cons v vs => simp at hlen
  | cons r rs ih =>
    cases vals with
    | nil => simp at hlen
    | cons v vs =>
      simp only [List.zipWith_cons_cons, List.map_cons]
      rw [getD_set_self _ _ _ _ (hidx r (by simp)),
        ih vs (by simpa using hlen) (fun r' hr' => hidx r' (by simp [hr']))]

theorem map_getD_zipWith_set_other (rows : List (List Cell)) (vals : List Cell)
    (idx idx' : Nat) (hne : idx ≠ idx') (hlen : vals.length = rows.length) :
    (List.zipWith (fun r v => r.set idx v) rows vals).map (fun r => r.getD idx' Cell.null)
      = rows.map (fun r => r.getD idx' Cell.null) := by
  induction rows generalizing vals with
  | nil => cases vals <;> rfl
  | cons r rs ih =>
    cases vals with
    | nil => simp at hlen
    | cons v vs =>
      simp only [List.zipWith_cons_cons, List.map_cons]
      rw [getD_set_ne _ hne, ih vs (by simpa using hlen)]

theorem map_getD_zipWith_append (rows : List (List Cell)) (vals : List Cell) (n : Nat)
    (hlen : vals.length = rows.length) (hn : ∀ r ∈ rows, r.length = n) :
    (List.zipWith (fun r v => r ++ [v]) rows vals).map (fun r => r.getD n Cell.null)
      = vals := by
  induction rows generalizing vals with
  | nil =>
    cases vals with
    | nil => rfl
    | cons v vs => simp at hlen
  | cons r rs ih =>
    cases vals with
    | nil => simp at hlen
    | cons v vs =>
      simp only [List.zipWith_cons_cons, List.map_cons]
      have h1 : (r ++ [v]).getD n Cell.null = v := by
        rw [← hn r (by simp)]
        exact getD_append_self r v Cell.null
      rw [h1, ih vs (by simpa using hlen) (fun r' hr' => hn r' (by simp [hr']))]

theorem map_getD_zipWith_append_other (rows : List (List Cell)) (vals : List Cell)
    (idx' : Nat) (hlen : vals.length = rows.length) (hidx : ∀ r ∈ rows, idx' < r.length) :
    (List.zipWith (fun r v => r ++ [v]) rows vals).map (fun r => r.getD idx' Cell.null)
      = rows.map (fun r => r.getD idx' Cell.null) := by
  induction rows generalizing vals with
  | nil => cases vals <;> rfl
  | cons r rs ih =>
    cases vals with
    | nil => simp at hlen
    | cons v vs =>
      simp only [List.zipWith_cons_cons, List.map_cons]
      rw [getD_append_of_lt _ _ _ _ (hidx r (by simp)),
        ih vs (by simpa using hlen) (fun r' hr' => hidx r' (by simp [hr']))]

theorem setCol_rows_length (df : DataFrame) (name : String) (vals : List Cell)
    (hlen : vals.length = df.rows.length) :
    (setCol df name vals).rows.length = df.rows.length := by
  unfold setCol
  split <;> simp [hlen]

theorem getCol_setCol_self (df : DataFrame) (name : String) (vals : List Cell)
    (hrect : Rect df) (hlen : vals.length = df.rows.length) :
    getCol (setCol df name vals) name = Except.ok vals := by
  by_cases h : name ∈ df.columns
  · rw [setCol_pos df name vals h]
    show (if name ∈ df.columns then
        Except.ok ((List.zipWith (fun r v => r.set (df.columns.indexOf name) v)
          df.rows vals).map (fun r => r.getD (df.columns.indexOf name) Cell.null))
      else Except.error (PdError.keyError name)) = Except.ok vals
    rw [if_pos h, map_getD_zipWith_set df.rows vals _ hlen (fun r hr => by
      rw [hrect r hr]
      exact List.indexOf_lt_length.2 h)]
  · rw [setCol_neg df name vals h]
    show (if name ∈ df.columns ++ [name] then
        Except.ok ((List.zipWith (fun r v => r ++ [v]) df.rows vals).map
          (fun r => r.getD ((df.columns ++ [name]).indexOf name) Cell.null))
      else Except.error (PdError.keyError name)) = Except.ok vals
    rw [if_pos (show name ∈ df.columns ++ [name] by simp),
      List.indexOf_append_of_not_mem h]
    simp only [List.indexOf_cons_self, Nat.add_zero]
    rw [map_getD_zipWith_append df.rows vals _ hlen (fun r hr => hrect r hr)]

theorem getCol_setCol_other (df : DataFrame) (name name' : String) (vals : List Cell)
    (hne : name' ≠ name) (hmem : name' ∈ df.columns)
    (hrect : Rect df) (hlen : vals.length = df.rows.length) :
    getCol (setCol df name vals) name' = getCol df name' := by
  by_cases h : name ∈ df.columns
  · rw [setCol_pos df name vals h]
    show (if name' ∈ df.columns then
        Except.ok ((List.zipWith (fun r v => r.set (df.columns.indexOf name) v)
          df.rows vals).map (fun r => r.getD (df.columns.indexOf name') Cell.null))
      else Except.error (PdError.keyError name')) = getCol df name'
    unfold getCol
    rw [if_pos hmem, if_pos hmem,
      map_getD_zipWith_set_other df.rows vals _ _
        (indexOf_ne_of_present h hmem (fun hh => hne hh.symm)) hlen]
    rfl
  · rw [setCol_neg df name vals h]
    show (if name' ∈ df.columns ++ [name] then
        Except.ok ((List.zipWith (fun r v => r ++ [v]) df.rows vals).map
          (fun r => r.getD ((df.columns ++ [name]).indexOf name') Cell.null))
      else Except.error (PdError.keyError name')) = getCol df name'
    rw [if_pos (show name' ∈ df.columns ++ [name] by simp [hmem]),
      List.indexOf_append_of_mem hmem]
    unfold getCol
    rw [if_pos hmem,
      map_getD_zipWith_append_other df.rows vals _ hlen (fun r hr => by
        rw [hrect r hr]
        exact List.indexOf_lt_length.2 hmem)]
    rfl

theorem sumFor_cons (p : Cell × Rat) (ps : List (Cell × Rat)) (k : Cell) :
    sumFor (p :: ps) k = (if p.1 = k then p.2 else 0) + sumFor ps k := by
  unfold sumFor
  by_cases h : p.1 = k
  · simp [h]
  · simp [h]

theorem sumFor_map_pair {α : Type} (rows : List α) (f : α → Cell) (g : α → Rat) (k : Cell) :
    sumFor (rows.map (fun r => (f r, g r))) k
      = ((rows.filter (fun r => decide (f r = k))).map g).sum := by
  induction rows with
  | nil => rfl
  | cons r rs ih =>
    rw [List.map_cons, sumFor_cons]
    by_cases h : f r = k
    · simp [h, List.filter_cons, ih]
    · simp [h, List.filter_cons, ih]

theorem mem_keysOf {k : Cell} {l : List Cell} (hk : k ∈ l) (hn : k ≠ Cell.null) :
    k ∈ keysOf l := by
  unfold keysOf
  rw [List.mem_dedup, List.mem_filter]
  exact ⟨hk, by simpa using hn⟩

theorem mem_groupbySum {pairs : List (Cell × Rat)} {k : Cell}
    (hk : k ∈ pairs.map (fun p => p.1)) (hn : k ≠ Cell.null) :
    (k, sumFor pairs k) ∈ groupbySum pairs :=
  List.mem_map_of_mem _ (mem_keysOf hk hn)

/-! ### Claim C9 — `set_index` raises iff the column is absent, atomically -/

/-- Claim C9: `set_index` raises `ValueError` exactly when the named column
is absent; when it raises the table is unchanged; when the column is
present it becomes the table's index (and, as pandas `set_index` does, is
removed from the columns). -/
theorem C9_set_index_atomic (df : DataFrame) (name : String) :
    ((set_index df name).1 = Except.error (PdError.valueError
        ("Column '" ++ name ++ "' not found in DataFrame.")) ↔ name ∉ df.columns) ∧
    (name ∉ df.columns → (set_index df name).2 = df) ∧
    (name ∈ df.columns →
      (set_index df name).1 = Except.ok () ∧
      (set_index df name).2.indexName = some name ∧
      (set_index df name).2.indexVals =
        df.rows.map (fun r => r.getD (df.columns.indexOf name) Cell.null) ∧
      (set_index df name).2.columns = df.columns.eraseIdx (df.columns.indexOf name)) := by
  unfold set_index
  by_cases h : name ∈ df.columns
  · simp [h]
  · simp [h]

/-- Claim C9 witness: on a concrete two-column table, indexing by a present
column succeeds and moves it into the index; the claim's error
characterization holds there too. -/
theorem C9_set_index_atomic_witness :
    ((set_index ⟨["a", "b"], [[Cell.num 1, Cell.num 2]], none, []⟩ "a").1 =
        Except.error (PdError.valueError "Column 'a' not found in DataFrame.") ↔
      "a" ∉ (⟨["a", "b"], [[Cell.num 1, Cell.num 2]], none, []⟩ : DataFrame).columns) ∧
    ("a" ∉ (⟨["a", "b"], [[Cell.num 1, Cell.num 2]], none, []⟩ : DataFrame).columns →
      (set_index ⟨["a", "b"], [[Cell.num 1, Cell.num 2]], none, []⟩ "a").2 =
        ⟨["a", "b"], [[Cell.num 1, Cell.num 2]], none, []⟩) ∧
    ("a" ∈ (⟨["a", "b"], [[Cell.num 1, Cell.num 2]], none, []⟩ : DataFrame).columns →
      (set_index ⟨["a", "b"], [[Cell.num 1, Cell.num 2]], none, []⟩ "a").1 = Except.ok () ∧
      (set_index ⟨["a", "b"], [[Cell.num 1, Cell.num 2]], none, []⟩ "a").2.indexName = some "a" ∧
      (set_index ⟨["a", "b"], [[Cell.num 1, Cell.num 2]], none, []⟩ "a").2.indexVals =
        (⟨["a", "b"], [[Cell.num 1, Cell.num 2]], none, []⟩ : DataFrame).rows.map
          (fun r => r.getD ((⟨["a", "b"], [[Cell.num 1, Cell.num 2]], none, []⟩ :
            DataFrame).columns.indexOf "a") Cell.null) ∧
      (set_index ⟨["a", "b"], [[Cell.num 1, Cell.num 2]], none, []⟩ "a").2.columns =
        (⟨["a", "b"], [[Cell.num 1, Cell.num 2]], none, []⟩ : DataFrame).columns.eraseIdx
          ((⟨["a", "b"], [[Cell.num 1, Cell.num 2]], none, []⟩ :
            DataFrame).columns.indexOf "a")) :=
  C9_set_index_atomic ⟨["a", "b"], [[Cell.num 1, Cell.num 2]], none, []⟩ "a"

/-! ### Claim C5 — the filters return exactly the matching rows -/

/-- Claim C5: `filter_by_category c` returns exactly the rows whose
`category` cell equals `c`, and `filter_by_period p` exactly the rows whose
`period` cell equals `p`, in their original order (a sublist of the rows),
with no non-matching row included. -/
theorem C5_filters_exact (df : DataFrame) (c p : String)
    (hcat : "category" ∈ df.columns) (hper : "period" ∈ df.columns) :
    ∃ dfc dfp, (filter_by_category df c).1 = Except.ok dfc ∧
      (filter_by_period df p).1 = Except.ok dfp ∧
      dfc.columns = df.columns ∧ dfp.columns = df.columns ∧
      dfc.rows.Sublist df.rows ∧ dfp.rows.Sublist df.rows ∧
      (∀ r, r ∈ dfc.rows ↔ r ∈ df.rows ∧ cellOfRow df "category" r = Cell.str c) ∧
      (∀ r, r ∈ dfp.rows ↔ r ∈ df.rows ∧ cellOfRow df "period" r = Cell.str p) := by
  unfold filter_by_category filter_by_period
  rw [if_pos hcat, if_pos hper]
  refine ⟨_, _, rfl, rfl, rfl, rfl, List.filter_sublist _, List.filter_sublist _, ?_, ?_⟩
  · intro r
    simp [List.mem_filter]
  · intro r
    simp [List.mem_filter]

/-- Claim C5 witness: filtering the concrete raw table for category
`"food"` and period `"W1"` yields exactly the matching rows. -/
theorem C5_filters_exact_witness :
    ∃ dfc dfp, (filter_by_category exRaw "food").1 = Except.ok dfc ∧
      (filter_by_period exRaw "W1").1 = Except.ok dfp ∧
      dfc.columns = exRaw.columns ∧ dfp.columns = exRaw.columns ∧
      dfc.rows.Sublist exRaw.rows ∧ dfp.rows.Sublist exRaw.rows ∧
      (∀ r, r ∈ dfc.rows ↔ r ∈ exRaw.rows ∧ cellOfRow exRaw "category" r = Cell.str "food") ∧
      (∀ r, r ∈ dfp.rows ↔ r ∈ exRaw.rows ∧ cellOfRow exRaw "period" r = Cell.str "W1") :=
  C5_filters_exact exRaw "food" "W1" (by decide) (by decide)

/-! ### Evaluation lemmas for the aggregation queries -/

theorem getCol_eval (df : DataFrame) (name : String) (h : name ∈ df.columns) :
    getCol df name = Except.ok (df.rows.map (cellOfRow df name)) := by
  unfold getCol
  rw [if_pos h]

theorem get_category_summary_eval (df : DataFrame)
    (hcat : "category" ∈ df.columns) (hsum : "sum rub" ∈ df.columns) :
    (get_category_summary df).1 = Except.ok (groupbySum
      ((df.rows.map (cellOfRow df "category")).zip
        ((df.rows.map (cellOfRow df "sum rub")).map cellRat))) := by
  simp only [get_category_summary, getCol_eval df "category" hcat,
    getCol_eval df "sum rub" hsum]

theorem get_monthly_summary_post (df : DataFrame) (hdate : "date" ∈ df.columns) :
    (get_monthly_summary df).2 =
      setCol df "month" ((df.rows.map (cellOfRow df "date")).map monthOf) := by
  cases hgs : getCol (setCol df "month"
      ((df.rows.map (cellOfRow df "date")).map monthOf)) "sum rub" with
  | error e =>
    cases hgm : getCol (setCol df "month"
        ((df.rows.map (cellOfRow df "date")).map monthOf)) "month" with
    | error e2 => simp only [get_monthly_summary, getCol_eval df "date" hdate, hgs, hgm]
    | ok months => simp only [get_monthly_summary, getCol_eval df "date" hdate, hgs, hgm]
  | ok vals =>
    cases hgm : getCol (setCol df "month"
        ((df.rows.map (cellOfRow df "date")).map monthOf)) "month" with
    | error e2 => simp only [get_monthly_summary, getCol_eval df "date" hdate, hgs, hgm]
    | ok months => simp only [get_monthly_summary, getCol_eval df "date" hdate, hgs, hgm]

theorem get_monthly_summary_eval (df : DataFrame) (hdate : "date" ∈ df.columns)
    (hsum : "sum rub" ∈ df.columns) (hrect : Rect df) :
    (get_monthly_summary df).1 = Except.ok
      ((groupbySum (((df.rows.map (cellOfRow df "date")).map monthOf).zip
        ((df.rows.map (cellOfRow df "sum rub")).map cellRat))).map
        (fun p => (formatMonth p.1, p.2))) := by
  have hlen : ((df.rows.map (cellOfRow df "date")).map monthOf).length
      = df.rows.length := by simp
  have hm := getCol_setCol_self df "month"
    ((df.rows.map (cellOfRow df "date")).map monthOf) hrect hlen
  have hs := getCol_setCol_other df "month" "sum rub"
    ((df.rows.map (cellOfRow df "date")).map monthOf) (by decide) hsum hrect hlen
  simp only [get_monthly_summary, getCol_eval df "date" hdate, hm, hs,
    getCol_eval df "sum rub" hsum]

/-! ### Partition lemmas for grouping -/

theorem sum_map_const_zero {α : Type} (K : List α) :
    (K.map (fun _ => (0 : Rat))).sum = 0 := by
  induction K with
  | nil => rfl
  | cons a K ih => simp [ih]

theorem sum_map_add {α : Type} (K : List α) (f g : α → Rat) :
    (K.map (fun x => f x + g x)).sum = (K.map f).sum + (K.map g).sum := by
  induction K with
  | nil => simp
  | cons a K ih =>
    simp only [List.map_cons, List.sum_cons, ih]
    ring

theorem sum_ite_single (K : List Cell) (hK : K.Nodup) (k : Cell) (hk : k ∈ K) (v : Rat) :
    (K.map (fun x => if k = x then v else 0)).sum = v := by
  induction K with
  | nil => cases hk
  | cons a K ih =>
    rw [List.map_cons, List.sum_cons]
    rcases List.mem_cons.1 hk with h | h
    · subst h
      rw [if_pos rfl]
      have hz : ∀ x ∈ K, (if k = x then v else 0) = 0 := by
        intro x hx
        apply if_neg
        intro he
        exact (List.nodup_cons.1 hK).1 (he.symm ▸ hx)
      rw [List.map_congr_left hz, sum_map_const_zero]
      ring
    · have hka : k ≠ a := by
        intro he
        exact (List.nodup_cons.1 hK).1 (he ▸ h)
      rw [if_neg hka, ih (List.nodup_cons.1 hK).2 h]
      ring

theorem sum_sumFor_partition (pairs : List (Cell × Rat)) (K : List Cell) (hK : K.Nodup)
    (hcov : ∀ p ∈ pairs, p.1 ∈ K) :
    (K.map (sumFor pairs)).sum = (pairs.map (fun p => p.2)).sum := by
  induction pairs with
  | nil =>
    have hzz : K.map (sumFor []) = K.map (fun _ => (0 : Rat)) :=
      List.map_congr_left (fun k _ => rfl)
    rw [hzz, sum_map_const_zero]
    rfl
  | cons p ps ih =>
    rw [List.map_congr_left (fun k _ => sumFor_cons p ps k),
      sum_map_add K (fun k => if p.1 = k then p.2 else 0) (sumFor ps),
      sum_ite_single K hK p.1 (hcov p (by simp)) p.2,
      ih (fun q hq => hcov q (by simp [hq]))]
    simp

/-! ### Claim C4 — aggregation totals equal the sums over matching rows -/

/-- Claim C4: for every category value `c` present in the table, the total
reported by `get_category_summary` for `c` is the sum of the `sum rub`
values over exactly the rows whose category is `c`; and for every month
key present, the total from `get_monthly_summary` is the sum of `sum rub`
over exactly the rows of that month. -/
theorem C4_totals_match_rows (df : DataFrame) (c pm : Cell)
    (hcat : "category" ∈ df.columns) (hsum : "sum rub" ∈ df.columns)
    (hdate : "date" ∈ df.columns) (hrect : Rect df)
    (hc : c ∈ df.rows.map (cellOfRow df "category")) (hcn : c ≠ Cell.null)
    (hpm : pm ∈ df.rows.map (fun r => monthOf (cellOfRow df "date" r)))
    (hpn : pm ≠ Cell.null) :
    (∃ s, (get_category_summary df).1 = Except.ok s ∧
      (c, ((df.rows.filter (fun r => decide (cellOfRow df "category" r = c))).map
        (fun r => cellRat (cellOfRow df "sum rub" r))).sum) ∈ s) ∧
    (∃ s, (get_monthly_summary df).1 = Except.ok s ∧
      (formatMonth pm, ((df.rows.filter (fun r =>
          decide (monthOf (cellOfRow df "date" r) = pm))).map
        (fun r => cellRat (cellOfRow df "sum rub" r))).sum) ∈ s) := by
  constructor
  · refine ⟨_, get_category_summary_eval df hcat hsum, ?_⟩
    rw [List.map_map, List.zip_map']
    have hk : c ∈ (df.rows.map (fun r =>
        (cellOfRow df "category" r, (cellRat ∘ cellOfRow df "sum rub") r))).map
        (fun p => p.1) := by
      rw [List.map_map]
      simpa [Function.comp] using hc
    have hmem := mem_groupbySum hk hcn
    rw [sumFor_map_pair] at hmem
    simpa [Function.comp] using hmem
  · refine ⟨_, get_monthly_summary_eval df hdate hsum hrect, ?_⟩
    rw [List.map_map, List.map_map, List.zip_map']
    have hk : pm ∈ (df.rows.map (fun r =>
        ((monthOf ∘ cellOfRow df "date") r, (cellRat ∘ cellOfRow df "sum rub") r))).map
        (fun p => p.1) := by
      rw [List.map_map]
      simpa [Function.comp] using hpm
    have hmem := mem_groupbySum hk hpn
    rw [sumFor_map_pair] at hmem
    have := List.mem_map_of_mem (fun p => (formatMonth p.1, p.2)) hmem
    simpa [Function.comp] using this

/-- Claim C4 witness: on the concrete raw table the `"food"` total and
the `2024-01` month total match the row sums. -/
theorem C4_totals_match_rows_witness :
    (∃ s, (get_category_summary exRaw).1 = Except.ok s ∧
      (Cell.str "food", ((exRaw.rows.filter (fun r =>
          decide (cellOfRow exRaw "category" r = Cell.str "food"))).map
        (fun r => cellRat (cellOfRow exRaw "sum rub" r))).sum) ∈ s) ∧
    (∃ s, (get_monthly_summary exRaw).1 = Except.ok s ∧
      (formatMonth (Cell.period 2024 1), ((exRaw.rows.filter (fun r =>
          decide (monthOf (cellOfRow exRaw "date" r) = Cell.period 2024 1))).map
        (fun r => cellRat (cellOfRow exRaw "sum rub" r))).sum) ∈ s) :=
  C4_totals_match_rows exRaw (Cell.str "food") (Cell.period 2024 1)
    (by decide) (by decide) (by decide) (by decide) (by decide) (by decide)
    (by decide) (by decide)

theorem get_subcategory_summary_eval (df : DataFrame) (c : String)
    (hcat : "category" ∈ df.columns) (hsub : "subcategory" ∈ df.columns)
    (hsum : "sum rub" ∈ df.columns) :
    (get_subcategory_summary df c).1 = Except.ok (groupbySum
      (((df.rows.filter (fun r => decide (cellOfRow df "category" r = Cell.str c))).map
          (cellOfRow df "subcategory")).zip
        (((df.rows.filter (fun r => decide (cellOfRow df "category" r = Cell.str c))).map
          (cellOfRow df "sum rub")).map cellRat))) := by
  have hfil : (filter_by_category df c).1 = Except.ok (DataFrame.mk df.columns
      (df.rows.filter (fun r => decide (cellOfRow df "category" r = Cell.str c)))
      df.indexName df.indexVals) := by
    unfold filter_by_category
    rw [if_pos hcat]
  have h1 := getCol_eval (DataFrame.mk df.columns
      (df.rows.filter (fun r => decide (cellOfRow df "category" r = Cell.str c)))
      df.indexName df.indexVals) "subcategory" hsub
  have h2 := getCol_eval (DataFrame.mk df.columns
      (df.rows.filter (fun r => decide (cellOfRow df "category" r = Cell.str c)))
      df.indexName df.indexVals) "sum rub" hsum
  simp only [get_subcategory_summary, hfil, h1, h2]
  rfl

/-! ### Claim C10 — subcategory totals refine the category total -/

/-- Claim C10: for a category value `c` present in the table (and, as holds
for every processed table, no null subcategory cell among its rows), the
per-subcategory totals of `get_subcategory_summary c` sum to exactly the
total reported for `c` by `get_category_summary`. -/
theorem C10_subcategory_refines_category (df : DataFrame) (c : String)
    (hcat : "category" ∈ df.columns) (hsub : "subcategory" ∈ df.columns)
    (hsum : "sum rub" ∈ df.columns)
    (hc : Cell.str c ∈ df.rows.map (cellOfRow df "category"))
    (hnn : ∀ r ∈ df.rows, cellOfRow df "category" r = Cell.str c →
      cellOfRow df "subcategory" r ≠ Cell.null) :
    ∃ subs cats, (get_subcategory_summary df c).1 = Except.ok subs ∧
      (get_category_summary df).1 = Except.ok cats ∧
      (Cell.str c, (subs.map (fun p => p.2)).sum) ∈ cats := by
  refine ⟨_, _, get_subcategory_summary_eval df c hcat hsub hsum,
    get_category_summary_eval df hcat hsum, ?_⟩
  set fr := df.rows.filter (fun r => decide (cellOfRow df "category" r = Cell.str c))
    with hfr
  simp only [List.map_map, List.zip_map']
  have hcov : ∀ p ∈ fr.map (fun r => (cellOfRow df "subcategory" r,
      (cellRat ∘ cellOfRow df "sum rub") r)), p.1 ∈ keysOf ((fr.map (fun r =>
        (cellOfRow df "subcategory" r, (cellRat ∘ cellOfRow df "sum rub") r))).map
      (fun p => p.1)) := by
    intro p hp
    refine mem_keysOf (List.mem_map_of_mem _ hp) ?_
    obtain ⟨r, hr, rfl⟩ := List.mem_map.1 hp
    rw [hfr] at hr
    have hrf := List.mem_filter.1 hr
    exact hnn r hrf.1 (of_decide_eq_true hrf.2)
  have hpart := sum_sumFor_partition
    (fr.map (fun r => (cellOfRow df "subcategory" r,
      (cellRat ∘ cellOfRow df "sum rub") r)))
    (keysOf ((fr.map (fun r => (cellOfRow df "subcategory" r,
      (cellRat ∘ cellOfRow df "sum rub") r))).map (fun p => p.1)))
    (List.nodup_dedup _) hcov
  have hsubsum : ((groupbySum (fr.map (fun r => (cellOfRow df "subcategory" r,
      (cellRat ∘ cellOfRow df "sum rub") r)))).map (fun p => p.2)).sum
      = ((fr.map (fun r => (cellOfRow df "subcategory" r,
        (cellRat ∘ cellOfRow df "sum rub") r))).map (fun p => p.2)).sum := by
    unfold groupbySum
    rw [List.map_map]
    simpa [Function.comp] using hpart
  rw [hsubsum, List.map_map]
  have hS : fr.map ((fun p => p.2) ∘ (fun r => (cellOfRow df "subcategory" r,
      (cellRat ∘ cellOfRow df "sum rub") r)))
      = fr.map (fun r => (cellRat ∘ cellOfRow df "sum rub") r) :=
    List.map_congr_left (fun r _ => rfl)
  rw [hS]
  have hk : Cell.str c ∈ (df.rows.map (fun r => (cellOfRow df "category" r,
      (cellRat ∘ cellOfRow df "sum rub") r))).map (fun p => p.1) := by
    rw [List.map_map]
    simpa [Function.comp] using hc
  have hmem := mem_groupbySum hk (by simp)
  rw [sumFor_map_pair] at hmem
  rw [← hfr] at hmem
  simpa [Function.comp] using hmem

/-- Claim C10 witness: on the concrete raw table the `"food"` subcategory
totals (grocery, cafe) sum to the `"food"` category total. -/
theorem C10_subcategory_refines_category_witness :
    ∃ subs cats, (get_subcategory_summary exRaw "food").1 = Except.ok subs ∧
      (get_category_summary exRaw).1 = Except.ok cats ∧
      (Cell.str "food", (subs.map (fun p => p.2)).sum) ∈ cats :=
  C10_subcategory_refines_category exRaw "food"
    (by decide) (by decide) (by decide) (by decide) (by decide)

theorem setCol_columns (df : DataFrame) (name : String) (vals : List Cell) :
    (setCol df name vals).columns =
      if name ∈ df.columns then df.columns else df.columns ++ [name] := by
  unfold setCol
  split <;> rfl

/-! ### Claim C3 — query methods and the `month` side effect -/

/-- Claim C3 (counterexample): `get_monthly_summary` does not merely add a
`month` column — on a table that already has one, the pre-existing `month`
column is overwritten, so the claim that all pre-existing columns are left
unchanged fails. -/
theorem C3_month_overwrite_counterexample :
    "month" ∈ exMonth.columns ∧
    getCol (get_monthly_summary exMonth).2 "month" ≠ getCol exMonth "month" := by
  decide

/-- Claim C3 (amended): every query method except `get_monthly_summary`
leaves the table exactly unchanged; `get_monthly_summary` changes the table
only in the `month` column — adding it if absent and overwriting it if
present with the months derived from the `date` column — leaving every
other column, and the number of rows, unchanged (and the table untouched
when the `date` lookup fails before the assignment). -/
theorem C3_query_frame_amended (df : DataFrame) (c p sc : String) (hrect : Rect df) :
    (filter_by_category df c).2 = df ∧
    (filter_by_period df p).2 = df ∧
    (get_category_summary df).2 = df ∧
    (get_subcategory_summary df sc).2 = df ∧
    (get_category_mean_median df).2 = df ∧
    ("date" ∉ df.columns → (get_monthly_summary df).2 = df) ∧
    ("date" ∈ df.columns →
      (get_monthly_summary df).2.columns =
        (if "month" ∈ df.columns then df.columns else df.columns ++ ["month"]) ∧
      (get_monthly_summary df).2.rows.length = df.rows.length ∧
      getCol (get_monthly_summary df).2 "month" =
        Except.ok ((df.rows.map (cellOfRow df "date")).map monthOf) ∧
      ∀ name, name ≠ "month" → name ∈ df.columns →
        getCol (get_monthly_summary df).2 name = getCol df name) := by
  refine ⟨?_, ?_, ?_, ?_, ?_, ?_, ?_⟩
  · unfold filter_by_category
    split <;> rfl
  · unfold filter_by_period
    split <;> rfl
  · unfold get_category_summary
    cases getCol df "category" <;> cases getCol df "sum rub" <;> rfl
  · unfold get_subcategory_summary
    cases (filter_by_category df sc).1 with
    | error e => rfl
    | ok fdf =>
      cases h1 : getCol fdf "subcategory" <;> cases h2 : getCol fdf "sum rub" <;>
        simp only [h1, h2]
  · unfold get_category_mean_median
    cases getCol df "category" <;> cases getCol df "sum rub" <;> rfl
  · intro hdate
    have hke : getCol df "date" = Except.error (PdError.keyError "date") := by
      unfold getCol
      rw [if_neg hdate]
    simp only [get_monthly_summary, hke]
  · intro hdate
    have hpost := get_monthly_summary_post df hdate
    have hlen : ((df.rows.map (cellOfRow df "date")).map monthOf).length
        = df.rows.length := by simp
    refine ⟨?_, ?_, ?_, ?_⟩
    · rw [hpost, setCol_columns]
    · rw [hpost, setCol_rows_length _ _ _ hlen]
    · rw [hpost]
      exact getCol_setCol_self df "month" _ hrect hlen
    · intro name hne hmem
      rw [hpost]
      exact getCol_setCol_other df "month" name _ hne hmem hrect hlen

/-- Claim C3 witness: the frame properties instantiated on the concrete
raw table. -/
theorem C3_query_frame_amended_witness :
    (filter_by_category exRaw "food").2 = exRaw ∧
    (filter_by_period exRaw "W1").2 = exRaw ∧
    (get_category_summary exRaw).2 = exRaw ∧
    (get_subcategory_summary exRaw "food").2 = exRaw ∧
    (get_category_mean_median exRaw).2 = exRaw ∧
    ("date" ∉ exRaw.columns → (get_monthly_summary exRaw).2 = exRaw) ∧
    ("date" ∈ exRaw.columns →
      (get_monthly_summary exRaw).2.columns =
        (if "month" ∈ exRaw.columns then exRaw.columns else exRaw.columns ++ ["month"]) ∧
      (get_monthly_summary exRaw).2.rows.length = exRaw.rows.length ∧
      getCol (get_monthly_summary exRaw).2 "month" =
        Except.ok ((exRaw.rows.map (cellOfRow exRaw "date")).map monthOf) ∧
      ∀ name, name ≠ "month" → name ∈ exRaw.columns →
        getCol (get_monthly_summary exRaw).2 name = getCol exRaw name) :=
  C3_query_frame_amended exRaw "food" "W1" "food" (by decide)

/-! ### Claim C7 — missing required columns -/

/-- Claim C7 (counterexample): `get_category_mean_median` does not fail
with an unhandled lookup error on a table missing its required `category`
column — its `try/except` swallows the `KeyError` and returns an empty
result with the table untouched. -/
theorem C7_mean_median_swallows_counterexample :
    "category" ∉ exNoCols.columns ∧
    (get_category_mean_median exNoCols).1 = Except.ok [] ∧
    (get_category_mean_median exNoCols).2 = exNoCols := by
  decide

/-- Claim C7 (amended): five of the six query methods (`filter_by_category`,
`filter_by_period`, `get_category_summary`, `get_subcategory_summary`,
`get_monthly_summary`) fail with an unhandled `KeyError` whenever any one
of their required columns (`category`, `period`, `date`, `subcategory`,
`sum rub`, as applicable) is missing; `get_category_mean_median` alone
catches the error and returns an empty result table instead. -/
theorem C7_missing_columns_amended (df : DataFrame) (c : String) :
    ("category" ∉ df.columns →
      (filter_by_category df c).1 = Except.error (PdError.keyError "category") ∧
      (get_category_summary df).1 = Except.error (PdError.keyError "category") ∧
      (get_subcategory_summary df c).1 = Except.error (PdError.keyError "category") ∧
      (get_category_mean_median df).1 = Except.ok []) ∧
    ("period" ∉ df.columns →
      (filter_by_period df c).1 = Except.error (PdError.keyError "period")) ∧
    ("date" ∉ df.columns →
      (get_monthly_summary df).1 = Except.error (PdError.keyError "date")) ∧
    ("category" ∈ df.columns → "sum rub" ∉ df.columns →
      (get_category_summary df).1 = Except.error (PdError.keyError "sum rub") ∧
      (get_category_mean_median df).1 = Except.ok []) ∧
    ("category" ∈ df.columns → "subcategory" ∉ df.columns →
      (get_subcategory_summary df c).1 = Except.error (PdError.keyError "subcategory")) ∧
    ("category" ∈ df.columns → "subcategory" ∈ df.columns → "sum rub" ∉ df.columns →
      (get_subcategory_summary df c).1 = Except.error (PdError.keyError "sum rub")) ∧
    ("date" ∈ df.columns → "sum rub" ∉ df.columns →
      (get_monthly_summary df).1 = Except.error (PdError.keyError "sum rub")) := by
  refine ⟨?_, ?_, ?_, ?_, ?_, ?_, ?_⟩
  · intro hcat
    have hkc : getCol df "category" = Except.error (PdError.keyError "category") := by
      unfold getCol
      rw [if_neg hcat]
    have hfilc : (filter_by_category df c).1 =
        Except.error (PdError.keyError "category") := by
      unfold filter_by_category
      rw [if_neg hcat]
    refine ⟨hfilc, ?_, ?_, ?_⟩
    · cases h2 : getCol df "sum rub" with
      | error e => simp only [get_category_summary, hkc, h2]
      | ok vals => simp only [get_category_summary, hkc, h2]
    · simp only [get_subcategory_summary, hfilc]
    · cases h2 : getCol df "sum rub" with
      | error e => simp only [get_category_mean_median, hkc, h2]
      | ok vals => simp only [get_category_mean_median, hkc, h2]
  · intro hper
    unfold filter_by_period
    rw [if_neg hper]
  · intro hdate
    have hkd : getCol df "date" = Except.error (PdError.keyError "date") := by
      unfold getCol
      rw [if_neg hdate]
    simp only [get_monthly_summary, hkd]
  · intro hcat hsum
    have hok := getCol_eval df "category" hcat
    have hks : getCol df "sum rub" = Except.error (PdError.keyError "sum rub") := by
      unfold getCol
      rw [if_neg hsum]
    exact ⟨by simp only [get_category_summary, hok, hks],
      by simp only [get_category_mean_median, hok, hks]⟩
  · intro hcat hsub
    have hfil : (filter_by_category df c).1 = Except.ok (DataFrame.mk df.columns
        (df.rows.filter (fun r => decide (cellOfRow df "category" r = Cell.str c)))
        df.indexName df.indexVals) := by
      unfold filter_by_category
      rw [if_pos hcat]
    have hsubmiss : getCol (DataFrame.mk df.columns
        (df.rows.filter (fun r => decide (cellOfRow df "category" r = Cell.str c)))
        df.indexName df.indexVals) "subcategory" =
        Except.error (PdError.keyError "subcategory") := by
      unfold getCol
      rw [if_neg hsub]
    cases h2 : getCol (DataFrame.mk df.columns
        (df.rows.filter (fun r => decide (cellOfRow df "category" r = Cell.str c)))
        df.indexName df.indexVals) "sum rub" with
    | error e => simp only [get_subcategory_summary, hfil, hsubmiss, h2]
    | ok vals => simp only [get_subcategory_summary, hfil, hsubmiss, h2]
  · intro hcat hsub hsum
    have hfil : (filter_by_category df c).1 = Except.ok (DataFrame.mk df.columns
        (df.rows.filter (fun r => decide (cellOfRow df "category" r = Cell.str c)))
        df.indexName df.indexVals) := by
      unfold filter_by_category
      rw [if_pos hcat]
    have hsubok := getCol_eval (DataFrame.mk df.columns
        (df.rows.filter (fun r => decide (cellOfRow df "category" r = Cell.str c)))
        df.indexName df.indexVals) "subcategory" hsub
    have hksum : getCol (DataFrame.mk df.columns
        (df.rows.filter (fun r => decide (cellOfRow df "category" r = Cell.str c)))
        df.indexName df.indexVals) "sum rub" =
        Except.error (PdError.keyError "sum rub") := by
      unfold getCol
      rw [if_neg hsum]
    simp only [get_subcategory_summary, hfil, hsubok, hksum]
  · intro hdate hsum
    have hdok := getCol_eval df "date" hdate
    have hmem : "month" ∈ (setCol df "month"
        ((df.rows.map (cellOfRow df "date")).map monthOf)).columns := by
      rw [setCol_columns]
      split
      · assumption
      · simp
    have hmok := getCol_eval (setCol df "month"
        ((df.rows.map (cellOfRow df "date")).map monthOf)) "month" hmem
    have hsmiss : getCol (setCol df "month"
        ((df.rows.map (cellOfRow df "date")).map monthOf)) "sum rub" =
        Except.error (PdError.keyError "sum rub") := by
      unfold getCol
      rw [if_neg (by
        rw [setCol_columns]
        split
        · exact hsum
        · intro hmem'
          rcases List.mem_append.1 hmem' with h | h
          · exact hsum h
          · simp at h)]
    simp only [get_monthly_summary, hdok, hmok, hsmiss]

/-- Claim C7 witness: on a table with none of the required columns the
category/period/date lookups error; on a table with everything but
`sum rub` the aggregations error on `sum rub`; `get_category_mean_median`
returns an empty result in both situations. -/
theorem C7_missing_columns_amended_witness :
    ((filter_by_category exNoCols "food").1 =
        Except.error (PdError.keyError "category") ∧
      (filter_by_period exNoCols "food").1 =
        Except.error (PdError.keyError "period") ∧
      (get_monthly_summary exNoCols).1 = Except.error (PdError.keyError "date") ∧
      (get_category_mean_median exNoCols).1 = Except.ok []) ∧
    ((get_category_summary exNoSum).1 = Except.error (PdError.keyError "sum rub") ∧
      (get_subcategory_summary exNoSum "food").1 =
        Except.error (PdError.keyError "sum rub") ∧
      (get_monthly_summary exNoSum).1 = Except.error (PdError.keyError "sum rub") ∧
      (get_category_mean_median exNoSum).1 = Except.ok []) := by
  have h1 := C7_missing_columns_amended exNoCols "food"
  have h2 := C7_missing_columns_amended exNoSum "food"
  exact ⟨⟨(h1.1 (by decide)).1, h1.2.1 (by decide), h1.2.2.1 (by decide),
      (h1.1 (by decide)).2.2.2⟩,
    ⟨(h2.2.2.2.1 (by decide) (by decide)).1,
      h2.2.2.2.2.2.1 (by decide) (by decide) (by decide),
      h2.2.2.2.2.2.2 (by decide) (by decide),
      (h2.2.2.2.1 (by decide) (by decide)).2⟩⟩

end FinancialTracker
